import Mathlib

set_option maxHeartbeats 1000000

/- Shallow embedding of crossenv 0.6 (src/crossenv/__init__.py).

   Python strings are modelled as Lean `String`, operated on through their
   underlying `List Char` so that every helper is structurally recursive and
   kernel-reducible.  Python exceptions are modelled by the inductive `PyErr`
   and fallible code returns `Except PyErr _`.  Calls into the OS / standard
   library (os.path stat calls, glob, open, subprocess, importing a module)
   go through an explicit `World` record of oracle functions, and every such
   call is logged in a `List Access` trace so that claims about which
   filesystem operations happen (reads vs. mutations, and whether they happen
   before a failure) are provable. -/

namespace Crossenv

/-- Python whitespace set used by `str.strip` / `str.lstrip` (ASCII fragment:
space, tab, newline, carriage return, vertical tab, form feed). -/
def chIsSpace (c : Char) : Bool :=
  c = ' ' || c = '\t' || c = '\n' || c = '\r' || c = Char.ofNat 11 || c = Char.ofNat 12

/-- Python `str.lstrip()`. -/
def pyLStrip (s : String) : String :=
  ⟨s.data.dropWhile chIsSpace⟩

/-- Python `str.strip()`. -/
def pyStrip (s : String) : String :=
  ⟨((s.data.dropWhile chIsSpace).reverse.dropWhile chIsSpace).reverse⟩

/-- Split a character list at the first occurrence of `sep`:
`some (before, after)`, or `none` when `sep` does not occur.  This is the
list-level core of Python's `str.split(sep, 1)` and `str.partition(sep)`. -/
def chSplitFirst (sep : Char) : List Char → Option (List Char × List Char)
  | [] => none
  | c :: cs =>
    if c = sep then some ([], cs)
    else
      match chSplitFirst sep cs with
      | none => none
      | some pr => some (c :: pr.1, pr.2)

/-- Python `s.split(sep, 1)`: `some (before, after)` when `sep` occurs in `s`
(the result list has two elements), `none` when it does not (one element). -/
def pySplit1 (s : String) (sep : Char) : Option (String × String) :=
  match chSplitFirst sep s.data with
  | none => none
  | some pr => some (⟨pr.1⟩, ⟨pr.2⟩)

/-- Split a character list at the last occurrence of `sep`. -/
def chSplitLast (sep : Char) : List Char → Option (List Char × List Char)
  | [] => none
  | c :: cs =>
    match chSplitLast sep cs with
    | some pr => some (c :: pr.1, pr.2)
    | none => if c = sep then some ([], cs) else none

/-- Python `str.split(sep)` with an explicit separator (no maxsplit): always
returns at least one piece; `"".split(sep) == ['']`. -/
def chSplitAll (sep : Char) : List Char → List (List Char)
  | [] => [[]]
  | c :: cs =>
    let r := chSplitAll sep cs
    if c = sep then [] :: r
    else
      match r with
      | [] => [[c]]
      | h :: t => (c :: h) :: t

/-- String version of `chSplitAll`. -/
def pySplitAll (s : String) (sep : Char) : List String :=
  (chSplitAll sep s.data).map (fun l => (⟨l⟩ : String))

/-- Python `s[-1:]`: the last character as a string, `""` for the empty string. -/
def pyLastSlice (s : String) : String :=
  match s.data.getLast? with
  | none => ""
  | some c => String.singleton c

/-- Python `s[:-1]`. -/
def pyDropLast (s : String) : String :=
  ⟨s.data.dropLast⟩

/-- Substring test on character lists (core of Python's `in` on strings).
The empty list is a substring of everything. -/
def chIsSub (sub : List Char) : List Char → Bool
  | [] => sub.isEmpty
  | c :: cs => sub.isPrefixOf (c :: cs) || chIsSub sub cs

/-- Python `sub in s` for strings.  Note `"" in s` is `True` in Python. -/
def pyInStr (sub s : String) : Bool :=
  chIsSub sub.data s.data

/-- Python `str.isidentifier()` restricted to the ASCII alphabet: first
character a letter or underscore, the rest letters, digits or underscores;
false for the empty string.  (Python also accepts further Unicode letters;
none of the program's inputs in question use them.) -/
def pyIsIdentifier (s : String) : Bool :=
  match s.data with
  | [] => false
  | c :: cs => (c.isAlpha || c = '_') && cs.all (fun d => d.isAlphanum || d = '_')

/-- Python `repr` of a simple string (no embedded quotes/escapes needed for
the strings this program formats with `%r`). -/
def pyRepr (s : String) : String :=
  "'" ++ s ++ "'"

/-- Python `os.path.dirname` (posixpath). -/
def pyDirname (s : String) : String :=
  match chSplitLast '/' s.data with
  | none => ""
  | some pr =>
    let head := pr.1 ++ ['/']
    if head.all (· = '/') then ⟨head⟩
    else ⟨(head.reverse.dropWhile (· = '/')).reverse⟩

/-- Python `os.path.basename` (posixpath). -/
def pyBasename (s : String) : String :=
  match chSplitLast '/' s.data with
  | none => s
  | some pr => ⟨pr.2⟩

/-- Python `os.path.splitext` (posixpath): split off the extension after the
last dot of the basename; a basename that is empty or all dots up to that dot
has no extension. -/
def pySplitext (s : String) : String × String :=
  let base : List Char :=
    match chSplitLast '/' s.data with
    | none => s.data
    | some pr => pr.2
  let dir : List Char :=
    match chSplitLast '/' s.data with
    | none => []
    | some pr => pr.1 ++ ['/']
  match chSplitLast '.' base with
  | none => (s, "")
  | some pr =>
    if pr.1.all (· = '.') then (s, "")
    else (⟨dir ++ pr.1⟩, ⟨'.' :: pr.2⟩)

/-- Python `os.path.join a b` for the uses in this program (`b` never
absolute, `a` nonempty and not ending in a slash). -/
def pyJoin (a b : String) : String :=
  a ++ "/" ++ b

/-- Join strings with a separator (used for `os.pathsep.join`, posix `:`). -/
def chJoin (sep : List Char) : List (List Char) → List Char
  | [] => []
  | [x] => x
  | x :: xs => x ++ sep ++ chJoin sep xs

/-- String join with separator. -/
def strJoin (sep : String) (l : List String) : String :=
  ⟨chJoin sep.data (l.map String.data)⟩

/-- Whitespace word-splitting, used to model `shlex.split` on the compiler
command strings of this development (which contain no quoting). -/
def chWordsAux (cur : List Char) : List Char → List (List Char)
  | [] => if cur.isEmpty then [] else [cur.reverse]
  | c :: cs =>
    if chIsSpace c then
      if cur.isEmpty then chWordsAux [] cs else cur.reverse :: chWordsAux [] cs
    else chWordsAux (c :: cur) cs

/-- Model of `shlex.split` for quote-free command strings. -/
def shlexSplit (s : String) : List String :=
  (chWordsAux [] s.data).map (fun l => (⟨l⟩ : String))

/-- Python `str.title()` (ASCII fragment): a letter is uppercased when the
previous character is not a letter, lowercased otherwise. -/
def pyTitleAux : Bool → List Char → List Char
  | _, [] => []
  | prevAlpha, c :: cs =>
    let c' := if c.isAlpha then (if prevAlpha then c.toLower else c.toUpper) else c
    c' :: pyTitleAux c.isAlpha cs

/-- Python `str.title()`. -/
def pyTitle (s : String) : String :=
  ⟨pyTitleAux false s.data⟩

/-- Python `line.partition('=')` collapsed to the two parts this program
uses: `(key, val)`, with `val = ""` when `'='` does not occur. -/
def pyPartitionEq (line : String) : String × String :=
  match chSplitFirst '=' line.data with
  | none => (line, "")
  | some pr => (⟨pr.1⟩, ⟨pr.2⟩)

/-- Python exceptions raised (or raisable) by the embedded code. -/
inductive PyErr where
  /-- `FileNotFoundError` / `IOError` raised with a message by the program,
  or propagated from the OS. -/
  | fileNotFoundError (msg : String)
  /-- `ValueError` with its message. -/
  | valueError (msg : String)
  /-- `IOError`/`OSError` from a failing read of the named file. -/
  | ioError (path : String)
  /-- `RuntimeError` with its message. -/
  | runtimeError (msg : String)
  /-- `NameError`: the named variable is not defined. -/
  | nameError (name : String)
  /-- `IndexError` (string index out of range). -/
  | indexError
  /-- `KeyError` for a missing dict key. -/
  | keyError (k : String)
deriving DecidableEq

/-- Is the result an error of `RuntimeError` kind? -/
def exceptErrIsRuntime {α : Type} : Except PyErr α → Bool
  | .error (.runtimeError _) => true
  | _ => false

/-- Is the result an error of `ValueError` kind? -/
def exceptErrIsValue {α : Type} : Except PyErr α → Bool
  | .error (.valueError _) => true
  | _ => false

/- ------------------------------------------------------------------ -/
/- parse_env_vars (source lines 575-602)                              -/
/- ------------------------------------------------------------------ -/

/-- Message of the `ValueError` Python raises when unpacking a 1-element list
into two targets (`name, value = spec.split('=', 1)` with no `'='` present). -/
def unpackMsg : String :=
  "not enough values to unpack (expected 2, got 1)"

/-- The message of the handler in `parse_env_vars`'s `except IndexError`
branch: `"Invalid variable %r. Must be in the form NAME=VALUE" % spec`. -/
def mustBeFormMsg (spec : String) : String :=
  "Invalid variable " ++ pyRepr spec ++ ". Must be in the form NAME=VALUE"

/-- The try-block body `name, value = spec.split('=', 1)`.  When `spec`
contains no `'='` the split yields a single element and the tuple unpacking
raises `ValueError` (not `IndexError`). -/
def trySplitUnpack (spec : String) : Except PyErr (String × String) :=
  match pySplit1 spec '=' with
  | some pr => .ok pr
  | none => .error (.valueError unpackMsg)

/-- The `except IndexError:` clause wrapped around `trySplitUnpack`: it turns
an `IndexError` (and only an `IndexError`) into the "Must be in the form
NAME=VALUE" `ValueError`; every other outcome passes through. -/
def handleIndexError {α : Type} (r : Except PyErr α) (spec : String) : Except PyErr α :=
  match r with
  | .error .indexError => .error (.valueError (mustBeFormMsg spec))
  | r => r

/-- The `name = name[:-1]` / operator-stripping step of `parse_env_vars`,
exposed as a function of the raw name so theorems can speak about the
variable name the code actually validates: `(name, assign)` after the check
`if name[-1:] in '?+:'`. Only meaningful for nonempty `name0` (for the empty
string the source raises `IndexError` before this point). -/
def stripOpName (name0 : String) : String × String :=
  if pyInStr (pyLastSlice name0) "?+:" then
    (pyDropLast name0, pyLastSlice name0 ++ "=")
  else (name0, "=")

/-- One iteration of the loop body of `parse_env_vars` (source lines 585-601)
for a single spec string. -/
def parseEnvVar1 (spec0 : String) : Except PyErr (String × String × String) :=
  let spec := pyLStrip spec0
  match handleIndexError (trySplitUnpack spec) spec with
  | .error e => .error e
  | .ok (name0, value) =>
    -- `if name[-1:] in '?+:':` — note `'' in '?+:'` is True in Python, so an
    -- empty name enters this branch and `name[-1]` raises IndexError.
    if pyInStr (pyLastSlice name0) "?+:" then
      match name0.data.getLast? with
      | none => .error .indexError
      | some c =>
        let assign := String.singleton c ++ "="
        let name := pyDropLast name0
        if !(pyIsIdentifier name) then
          .error (.valueError ("Invalid variable name " ++ pyRepr name))
        else .ok (name, assign, value)
    else
      if !(pyIsIdentifier name0) then
        .error (.valueError ("Invalid variable name " ++ pyRepr name0))
      else .ok (name0, "=", value)

/-- `parse_env_vars` (source lines 575-602): parse each spec in order,
propagating the first error. -/
def parse_env_vars : List String → Except PyErr (List (String × String × String))
  | [] => .ok []
  | s :: rest =>
    match parseEnvVar1 s with
    | .error e => .error e
    | .ok trip =>
      match parse_env_vars rest with
      | .error e => .error e
      | .ok l => .ok (trip :: l)

/- ------------------------------------------------------------------ -/
/- The external world: OS, stdlib and subprocess oracles              -/
/- ------------------------------------------------------------------ -/

/-- Outcome of `subprocess.check_output`. -/
inductive ProcErr where
  /-- the command ran and exited with a nonzero status
  (`subprocess.CalledProcessError`) -/
  | calledProcessError
  /-- the executable could not be found (`FileNotFoundError`, an `OSError`) -/
  | fileNotFound
deriving DecidableEq

/-- One logged call out of the program into the OS / filesystem.  Discovery
and construction only ever perform the read-only kinds; the mutating kinds
exist so that "performs no filesystem mutation" is a contentful statement. -/
inductive Access where
  /-- `os.path.exists` / `os.path.isfile` / `os.path.isdir` /
  `sysconfig._is_python_source_dir` on a path -/
  | statPath (p : String)
  /-- opening and reading a file -/
  | readFile (p : String)
  /-- a `glob.glob` call with its pattern -/
  | globPat (pat : String)
  /-- importing (executing) a discovered sysconfigdata module -/
  | importModule (p : String)
  /-- running a subprocess -/
  | proc (cmd : List String)
  /-- writing a file (never performed during construction) -/
  | writeFile (p : String)
  /-- removing a file or tree (never performed during construction) -/
  | removeEntry (p : String)
  /-- creating a directory (never performed during construction) -/
  | makeDir (p : String)
deriving DecidableEq

/-- Is this access a filesystem mutation? -/
def Access.isMutation : Access → Bool
  | .writeFile _ => true
  | .removeEntry _ => true
  | .makeDir _ => true
  | _ => false

/-- A trace contains no filesystem mutation. -/
def traceOk (t : List Access) : Bool :=
  t.all (fun a => !a.isMutation)

/-- The oracles for every call the embedded code makes outside the program:
`os.path` stat calls, `glob`, file reads, `sysconfig` queries about the
*running* interpreter, `sys`/`platform` values, executing a discovered
sysconfigdata module, and `subprocess.check_output`. -/
structure World where
  /-- `os.path.abspath` -/
  absPath : String → String
  /-- `os.path.exists` -/
  pathExists : String → Bool
  /-- `os.path.isfile` -/
  isFile : String → Bool
  /-- `os.path.isdir` -/
  isDir : String → Bool
  /-- `glob.glob` -/
  glob : String → List String
  /-- open + read; `.error ()` models an `IOError` on open/read -/
  readFile : String → Except Unit String
  /-- `sysconfig._is_python_source_dir` -/
  isPythonSourceDir : String → Bool
  /-- `sysconfig.get_config_var('VERSION')` of the running interpreter -/
  buildVERSION : String
  /-- `sysconfig.get_config_var('py_version_short')` -/
  pyVersionShort : String
  /-- `sys.platform` -/
  sysPlatform : String
  /-- `platform.machine()` -/
  platformMachine : String
  /-- the `build_time_vars` dict of the sysconfigdata module at a path, as an
  association list (importlib spec_from_file_location + exec_module) -/
  moduleBuildTimeVars : String → List (String × String)
  /-- `subprocess.check_output(cmdline)` -/
  runProcess : List String → Except ProcErr String

/-- Python truthiness of an optional string (`None` and `''` are falsy). -/
def optTruthy : Option String → Bool
  | none => false
  | some s => s ≠ ""

/- ------------------------------------------------------------------ -/
/- find_sysconfig_data (source lines 135-176)                         -/
/- ------------------------------------------------------------------ -/

/-- The chosen sysconfigdata module: its path, module name and
`build_time_vars`. -/
structure Scd where
  file : String
  name : String
  vars : List (String × String)
deriving DecidableEq

/-- The sort key of `find_sysconfig_data` (source lines 154-155):
`len(x.split('.', 1)[1])` — the length of everything after the *first* dot of
the whole path.  (Every sorted candidate ends in `.py`/`.pyc` so a dot always
exists; a dotless path would raise IndexError in the source.) -/
def sortKey (x : String) : Nat :=
  match chSplitFirst '.' x.data with
  | none => 0
  | some pr => pr.2.length

/-- Comparison relation used to sort sysconfigdata candidates. -/
def sortLe (a b : String) : Prop :=
  sortKey a ≤ sortKey b

instance : DecidableRel sortLe :=
  fun a b => Nat.decLe (sortKey a) (sortKey b)

/-- The loop over sorted candidates (source lines 156-171): the first
candidate becomes authoritative; any later candidate whose `build_time_vars`
differ raises `ValueError("Malformed Python installation!")`.  Returns the
accumulated choice plus the trace of module executions. -/
def fsdLoop (w : World) : List String → Option Scd → Except PyErr (Option Scd) × List Access
  | [], acc => (.ok acc, [])
  | p :: rest, acc =>
    let vars := w.moduleBuildTimeVars p
    match acc with
    | none =>
      let name := (pySplitext (pyBasename p)).1
      let r := fsdLoop w rest (some { file := p, name := name, vars := vars })
      (r.1, Access.importModule p :: r.2)
    | some scd =>
      if scd.vars ≠ vars then
        (.error (.valueError "Malformed Python installation!"), [Access.importModule p])
      else
        let r := fsdLoop w rest (some scd)
        (r.1, Access.importModule p :: r.2)

/-- `find_sysconfig_data` (source lines 135-176).  Glob each candidate path
for `_sysconfigdata*.py*`, keep regular files with extension `.py`/`.pyc`,
deduplicate (the source collects them into a `set`, whose iteration order is
arbitrary; the order chosen here is immaterial to the properties proved),
sort by `sortKey`, then run the authoritative/conflict loop.  Fails with
`FileNotFoundError` when nothing was found. -/
def find_sysconfig_data (w : World) (paths : List String) : Except PyErr Scd × List Access :=
  let patterns := paths.map (fun p => pyJoin p "_sysconfigdata*.py*")
  let maybe := patterns.foldl (fun acc pat => acc ++ w.glob pat) []
  let cands := maybe.filter
    (fun f => w.isFile f && ((pySplitext f).2 = ".py" || (pySplitext f).2 = ".pyc"))
  let sorted := List.insertionSort sortLe cands.dedup
  let lp := fsdLoop w sorted none
  let t := patterns.map Access.globPat ++ maybe.map Access.statPath ++ lp.2
  match lp.1 with
  | .error e => (.error e, t)
  | .ok none => (.error (.fileNotFoundError "No _sysconfigdata*.py found in host lib"), t)
  | .ok (some scd) => (.ok scd, t)

/- ------------------------------------------------------------------ -/
/- find_host_python (source lines 179-262)                            -/
/- ------------------------------------------------------------------ -/

/-- Scan the lines of `pyvenv.cfg` (source lines 126-132): the first line
whose stripped key is `home` returns `os.path.dirname` of its stripped value;
otherwise fall back to `home`. -/
def scanPyvenv (home : String) : List String → String
  | [] => home
  | line :: rest =>
    let pr := pyPartitionEq line
    if pyStrip pr.1 = "home" then pyDirname (pyStrip pr.2)
    else scanPyvenv home rest

/-- `find_installed_host_home` (source lines 118-133). -/
def find_installed_host_home (w : World) (host_project_base : String) :
    Except PyErr String × List Access :=
  let home := pyDirname host_project_base
  let pyvenv := pyJoin home "pyvenv.cfg"
  if w.pathExists pyvenv then
    match w.readFile pyvenv with
    | .error _ => (.error (.ioError pyvenv), [Access.statPath pyvenv, Access.readFile pyvenv])
    | .ok content =>
      (.ok (scanPyvenv home (pySplitAll content '\n')),
       [Access.statPath pyvenv, Access.readFile pyvenv])
  else (.ok home, [Access.statPath pyvenv])

/-- Scan the Makefile lines (source lines 249-257): default `sys.platform`;
the first stripped line starting with `_PYTHON_HOST_PLATFORM=` decides — its
value if nonempty, else the default (the loop `break`s either way). -/
def scanMakefile (sysP : String) : List String → String
  | [] => sysP
  | ln :: rest =>
    let l := pyStrip ln
    if "_PYTHON_HOST_PLATFORM=".data.isPrefixOf l.data then
      let hp := match chSplitFirst '=' l.data with
        | some pr => (⟨pr.2⟩ : String)
        | none => l
      if hp ≠ "" then hp else sysP
    else scanMakefile sysP rest

/-- The source-build-tree branch of `find_host_python` (source lines
196-207), producing `(host_home, host_makefile, sysconfig_paths)`.

Source lines 202-204 read:
`except IOError: raise IOError("Cannot read %s: Build the host Python first " % s) from None`.
The name `s` is not defined anywhere in scope (the path variable is called
`pybuilddir`), so when the handler runs, evaluating the format expression
raises `NameError` for `s` before any `IOError` can be constructed. -/
def fhpSrcBranch (w : World) (host_project_base : String) :
    Except PyErr (String × String × List String) × List Access :=
  let host_makefile := pyJoin host_project_base "Makefile"
  let pybuilddir := pyJoin host_project_base "pybuilddir.txt"
  match w.readFile pybuilddir with
  | .error _ => (.error (.nameError "s"), [Access.readFile pybuilddir])
  | .ok c =>
    let build_dir := pyStrip c
    (.ok (host_project_base, host_makefile, [pyJoin host_project_base build_dir]),
     [Access.readFile pybuilddir])

/-- The installed-layout branch of `find_host_python` (source lines 208-225),
producing `(host_home, host_makefile, sysconfig_paths)`; `host_makefile` is
`''` when the glob finds none ("fail later"). -/
def fhpInstBranch (w : World) (host_project_base : String) :
    Except PyErr (String × String × List String) × List Access :=
  let fh := find_installed_host_home w host_project_base
  match fh.1 with
  | .error e => (.error e, fh.2)
  | .ok host_home =>
    let python_ver := "python" ++ w.pyVersionShort
    let libdir := pyJoin (pyJoin host_home "lib") python_ver
    let sysconfig_paths := [libdir, pyJoin libdir "*"]
    let mfPat := pyJoin (pyJoin libdir "*") "Makefile"
    let mks := w.glob mfPat
    let host_makefile := match mks with
      | [] => ""
      | m :: _ => m
    (.ok (host_home, host_makefile, sysconfig_paths), fh.2 ++ [Access.globPat mfPat])

/-- Discovery results of `find_host_python`. -/
structure HostInfo where
  host_project_base : String
  host_home : String
  host_makefile : String
  sysconfigdata_file : String
  sysconfigdata_name : String
  build_time_vars : List (String × String)
  host_cc : List String
  host_version : String
  host_platform : String
deriving DecidableEq

/-- The tail of `find_host_python` after the layout branch (source lines
228-257): locate sysconfig data, extract `CC` (split with shlex; the
compound-command case only logs warnings) and `VERSION`, require the
Makefile to exist, read it and extract the host platform tag. -/
def fhpTail (w : World) (host_project_base host_home host_makefile : String)
    (sysconfig_paths : List String) : Except PyErr HostInfo × List Access :=
  let fsd := find_sysconfig_data w sysconfig_paths
  match fsd.1 with
  | .error e => (.error e, fsd.2)
  | .ok scd =>
    match scd.vars.lookup "CC" with
    | none => (.error (.keyError "CC"), fsd.2)
    | some cc =>
      let host_cc := shlexSplit cc
      match scd.vars.lookup "VERSION" with
      | none => (.error (.keyError "VERSION"), fsd.2)
      | some host_version =>
        let t := fsd.2 ++ [Access.statPath host_makefile]
        if w.pathExists host_makefile then
          let t2 := t ++ [Access.readFile host_makefile]
          match w.readFile host_makefile with
          | .error _ => (.error (.ioError host_makefile), t2)
          | .ok mk =>
            (.ok { host_project_base := host_project_base,
                   host_home := host_home,
                   host_makefile := host_makefile,
                   sysconfigdata_file := scd.file,
                   sysconfigdata_name := scd.name,
                   build_time_vars := scd.vars,
                   host_cc := host_cc,
                   host_version := host_version,
                   host_platform := scanMakefile w.sysPlatform (pySplitAll mk '\n') }, t2)
        else (.error (.fileNotFoundError "Cannot find Makefile"), t)

/-- `find_host_python` up to (but excluding) the final version sanity check
(source lines 186-257): existence/regular-file checks, source-tree vs
installed layout, sysconfig data, CC, VERSION, Makefile. -/
def find_host_python_pre (w : World) (host0 : String) : Except PyErr HostInfo × List Access :=
  let host := w.absPath host0
  if !(w.pathExists host) then
    (.error (.fileNotFoundError (host ++ " does not exist")), [Access.statPath host])
  else if !(w.isFile host) then
    (.error (.valueError ("Expected a path to a Python executable. Got " ++ host)),
     [Access.statPath host, Access.statPath host])
  else
    let host_project_base := pyDirname host
    let t0 := [Access.statPath host, Access.statPath host, Access.statPath host_project_base]
    let br := if w.isPythonSourceDir host_project_base
      then fhpSrcBranch w host_project_base
      else fhpInstBranch w host_project_base
    match br.1 with
    | .error e => (.error e, t0 ++ br.2)
    | .ok (host_home, host_makefile, sysconfig_paths) =>
      let tl := fhpTail w host_project_base host_home host_makefile sysconfig_paths
      (tl.1, t0 ++ br.2 ++ tl.2)

/-- `find_host_python` (source lines 179-262): the discovery above followed
by the version sanity check of lines 259-262, which is the last statement of
the function. -/
def find_host_python (w : World) (host0 : String) : Except PyErr HostInfo × List Access :=
  let pre := find_host_python_pre w host0
  match pre.1 with
  | .error e => (.error e, pre.2)
  | .ok info =>
    if info.host_version ≠ w.buildVERSION then
      (.error (.valueError ("Version mismatch: host=" ++ info.host_version ++
        ", build=" ++ w.buildVERSION)), pre.2)
    else (.ok info, pre.2)

/- ------------------------------------------------------------------ -/
/- find_compiler_info (source lines 264-287)                          -/
/- ------------------------------------------------------------------ -/

/-- `run_compiler` (source lines 270-275): run the compiler with one extra
argument; a `CalledProcessError` is caught and becomes `None`; a
`FileNotFoundError` (binary absent) is *not* caught and propagates. -/
def run_compiler (w : World) (host_cc : List String) (arg : String) :
    Except PyErr (Option String) × List Access :=
  let cmdline := host_cc ++ [arg]
  (match w.runProcess cmdline with
   | .ok out => .ok (some out)
   | .error .calledProcessError => .ok none
   | .error .fileNotFound => .error (.fileNotFoundError (cmdline.headD "")),
   [Access.proc cmdline])

/-- `find_compiler_info` (source lines 264-287): probe the compiler with
`--version` (raising `RuntimeError` when that *returns* an error); when no
sysroot was supplied, ask the compiler with `-print-sysroot`, stripping a
truthy answer and treating `None` or `''` as no sysroot. -/
def find_compiler_info (w : World) (host_cc : List String) (host_sysroot : Option String) :
    Except PyErr (Option String) × List Access :=
  let rv := run_compiler w host_cc "--version"
  match rv.1 with
  | .error e => (.error e, rv.2)
  | .ok none =>
    (.error (.runtimeError "Cannot run cross-compiler! Extension modules won't build!"), rv.2)
  | .ok (some _) =>
    match host_sysroot with
    | some sr => (.ok (some sr), rv.2)
    | none =>
      let rs := run_compiler w host_cc "-print-sysroot"
      match rs.1 with
      | .error e => (.error e, rv.2 ++ rs.2)
      | .ok none => (.ok none, rv.2 ++ rs.2)
      | .ok (some out) =>
        (.ok (some (if out = "" then out else pyStrip out)), rv.2 ++ rs.2)

/- ------------------------------------------------------------------ -/
/- CrossEnvBuilder.__init__ (source lines 84-115)                     -/
/- ------------------------------------------------------------------ -/

/-- The keyword arguments of `CrossEnvBuilder.__init__`.  `clear` is `False`
or one of the strings `'default' | 'cross' | 'build' | 'both'`, modelled as
`Option String`; `cross_loc` models the `cross_prefix` argument. -/
structure InitArgs where
  host_python : String
  extra_env_vars : List (String × String × String)
  build_system_site_packages : Bool
  clear : Option String
  cross_loc : Option String
  with_cross_pip : Bool
  with_build_pip : Bool
  host_sysroot : Option String
deriving DecidableEq

/-- Python `clear in (s1, ..., sn)` where `clear` is `False` or a string. -/
def clearIn (c : Option String) (l : List String) : Bool :=
  match c with
  | none => false
  | some s => l.contains s

/-- The constructed builder state (the attributes `__init__` sets). -/
structure Builder where
  host_sysroot : Option String
  info : HostInfo
  build_system_site_packages : Bool
  extra_env_vars : List (String × String × String)
  clear_build : Bool
  with_cross_pip : Bool
  with_build_pip : Bool
  /-- the source's `cross_prefix` attribute -/
  cross_loc : Option String
  clear_cross : Bool
deriving DecidableEq

/-- `CrossEnvBuilder.__init__` (source lines 84-115): target discovery, then
the compiler probe, then flag computation; the cross-pip/build-pip check is
on lines 99-100, *after* both discovery steps.  The final `super().__init__`
call only stores venv options and touches no file. -/
def builderInit (w : World) (a : InitArgs) : Except PyErr Builder × List Access :=
  let fhp := find_host_python w a.host_python
  match fhp.1 with
  | .error e => (.error e, fhp.2)
  | .ok info =>
    let fci := find_compiler_info w info.host_cc a.host_sysroot
    match fci.1 with
    | .error e => (.error e, fhp.2 ++ fci.2)
    | .ok host_sysroot =>
      let clear_build := clearIn a.clear ["default", "build", "both"]
      if a.with_cross_pip && !a.with_build_pip then
        (.error (.valueError "Cannot have cross-pip without build-pip"), fhp.2 ++ fci.2)
      else if optTruthy a.cross_loc then
        (.ok { host_sysroot := host_sysroot,
               info := info,
               build_system_site_packages := a.build_system_site_packages,
               extra_env_vars := a.extra_env_vars,
               clear_build := clear_build,
               with_cross_pip := a.with_cross_pip,
               with_build_pip := a.with_build_pip,
               cross_loc := some (w.absPath (a.cross_loc.getD "")),
               clear_cross := clearIn a.clear ["cross", "both"] }, fhp.2 ++ fci.2)
      else
        (.ok { host_sysroot := host_sysroot,
               info := info,
               build_system_site_packages := a.build_system_site_packages,
               extra_env_vars := a.extra_env_vars,
               clear_build := clear_build,
               with_cross_pip := a.with_cross_pip,
               with_build_pip := a.with_build_pip,
               cross_loc := none,
               clear_cross := clearIn a.clear ["default", "cross", "both"] }, fhp.2 ++ fci.2)

/- ------------------------------------------------------------------ -/
/- make_cross_python: the env-var rule list (source lines 490-508)    -/
/- ------------------------------------------------------------------ -/

/-- An environment-variable rule `(name, op, value)`. -/
abbrev EnvRule := String × String × String

/-- The `extra_envs` list assembled in `make_cross_python` (source lines
490-508) and handed to the `pywrapper.py.tmpl` launcher template: a copy of
the user rules, then — when a sysroot was resolved (truthy) — a
`LIBRARY_PATH` `:=` rule joining the `usr/lib*` glob matches (skipped with a
warning when the glob is empty) and a `CPATH` `:=` rule for `usr/include`
(skipped with a warning when it is not a directory).  `os.pathsep` is `:`
on posix. -/
def computeExtraEnvs (w : World) (extra_env_vars : List EnvRule)
    (host_sysroot : Option String) : List EnvRule × List Access :=
  let extra_envs := extra_env_vars
  if optTruthy host_sysroot then
    let sr := host_sysroot.getD ""
    let libsPat := pyJoin (pyJoin sr "usr") "lib*"
    let libs := w.glob libsPat
    let extra_envs2 := if libs.isEmpty then extra_envs
      else extra_envs ++ [("LIBRARY_PATH", ":=", strJoin ":" libs)]
    let inc := pyJoin (pyJoin sr "usr") "include"
    if !(w.isDir inc) then (extra_envs2, [Access.globPat libsPat, Access.statPath inc])
    else (extra_envs2 ++ [("CPATH", ":=", inc)], [Access.globPat libsPat, Access.statPath inc])
  else (extra_envs, [])

/-- The sysroot-derived tail of the rule list: what `computeExtraEnvs`
appends after the user rules (its value on an empty user list). -/
def sysrootRules (w : World) (host_sysroot : Option String) : List EnvRule :=
  (computeExtraEnvs w [] host_sysroot).1

/-- Modelled from the spec: the generated launcher script (rendered from
`pywrapper.py.tmpl`, a template file that is not under src/) applies each
`EnvVarRule` to the child process environment in list order on every
invocation: `=` sets unconditionally, `?=` sets only when unset, and the
path-list operators `:=` / `+=` accumulate onto any existing value. -/
def applyRule (env : List (String × String)) (r : EnvRule) : List (String × String) :=
  let set := fun (n v : String) =>
    if (env.lookup n).isSome then env.map (fun p => if p.1 = n then (n, v) else p)
    else env ++ [(n, v)]
  match r.2.1 with
  | "=" => set r.1 r.2.2
  | "?=" =>
    (match env.lookup r.1 with
     | some _ => env
     | none => set r.1 r.2.2)
  | ":=" =>
    (match env.lookup r.1 with
     | some old => set r.1 (old ++ ":" ++ r.2.2)
     | none => set r.1 r.2.2)
  | "+=" =>
    (match env.lookup r.1 with
     | some old => set r.1 (old ++ r.2.2)
     | none => set r.1 r.2.2)
  | _ => env

/-- Modelled from the spec: the launcher applies the whole rule list in
declaration order, each rule exactly once. -/
def applyRules (rules : List EnvRule) (env : List (String × String)) : List (String × String) :=
  rules.foldl applyRule env

/- ------------------------------------------------------------------ -/
/- create_configuration: the uname section (source lines 332-362)     -/
/- ------------------------------------------------------------------ -/

/-- The `config['uname']` section computed by `create_configuration` (source
lines 338-358).  `host_info = self.host_platform.split('-')`; the
`if not host_info` branch can never run (`str.split` never returns an empty
list) and would raise `NameError` for the never-assigned `machine` when the
dict is built; the other branches index the *characters* of `sys.platform`:
`sysname = sys.platform[0]` and (two-or-more-parts case)
`machine = sys.platform[-1]`. -/
def unameSection (w : World) (host_platform : String) : Except PyErr (List (String × String)) :=
  let host_info := pySplitAll host_platform '-'
  match host_info with
  | [] => .error (.nameError "machine")
  | [_] =>
    match w.sysPlatform.data.head? with
    | none => .error .indexError
    | some c =>
      let sysname := String.singleton c
      let machine := w.platformMachine
      .ok [("sysname", pyTitle sysname), ("nodename", "build"), ("release", ""),
           ("version", ""), ("machine", machine)]
  | _ :: _ :: _ =>
    match w.sysPlatform.data.head? with
    | none => .error .indexError
    | some c =>
      match w.sysPlatform.data.getLast? with
      | none => .error .indexError
      | some d =>
        let sysname := String.singleton c
        let machine := String.singleton d
        .ok [("sysname", pyTitle sysname), ("nodename", "build"), ("release", ""),
             ("version", ""), ("machine", machine)]

/-- The secondary file extension of a *filename* in the sense of the spec:
everything after the first dot. -/
def secondaryExt (filename : String) : String :=
  match chSplitFirst '.' filename.data with
  | none => ""
  | some pr => ⟨pr.2⟩

/- ------------------------------------------------------------------ -/
/- ensure_directories: the clearing step (source lines 319-324)       -/
/- ------------------------------------------------------------------ -/

/-- The contents of the environment directory: entry names paired with an
abstract content identifier (so "left unchanged" is expressible). -/
abbrev DirEntries := List (String × Nat)

/-- Modelled from the spec: `utils.remove_path` (the `utils` module is not
under src/) removes the named entry — file or directory tree — from the
directory. -/
def remove_path (entries : DirEntries) (name : String) : DirEntries :=
  entries.filter (fun e => !(e.1 = name))

/-- The clearing step of `ensure_directories` (source lines 319-324): when
the directory exists and clearing was requested for either sub-environment,
walk the directory listing and remove every entry except `cross` and
`build`.  Returns the directory contents after this step. -/
def ensureDirectoriesClear (clear_cross clear_build : Bool) (dirExists : Bool)
    (entries : DirEntries) : DirEntries :=
  if dirExists && (clear_cross || clear_build) then
    (entries.map Prod.fst).foldl
      (fun es sub => if sub = "cross" || sub = "build" then es else remove_path es sub)
      entries
  else entries

/- ------------------------------------------------------------------ -/
/- Concrete worlds used by the closed theorems                        -/
/- ------------------------------------------------------------------ -/

/-- A world with inert oracles, overridden per scenario. -/
def baseWorld : World where
  absPath := fun s => s
  pathExists := fun _ => false
  isFile := fun _ => false
  isDir := fun _ => false
  glob := fun _ => []
  readFile := fun _ => .error ()
  isPythonSourceDir := fun _ => false
  buildVERSION := "3.11"
  pyVersionShort := "3.11"
  sysPlatform := "linux"
  platformMachine := "x86_64"
  moduleBuildTimeVars := fun _ => []
  runProcess := fun _ => .ok "gcc (GCC) 12.2.0"

/-- A well-formed installed-layout target at `/usr/bin/python3` whose
sysconfigdata records `CC=gcc` and the given `VERSION`. -/
def instWorld (ver : String) : World :=
  { baseWorld with
    pathExists := fun p =>
      p = "/usr/bin/python3" || p = "/usr/lib/python3.11/config-3.11/Makefile"
    isFile := fun p =>
      p = "/usr/bin/python3" || p = "/usr/lib/python3.11/_sysconfigdata__linux_.py"
    glob := fun pat =>
      if pat = "/usr/lib/python3.11/_sysconfigdata*.py*" then
        ["/usr/lib/python3.11/_sysconfigdata__linux_.py"]
      else if pat = "/usr/lib/python3.11/*/Makefile" then
        ["/usr/lib/python3.11/config-3.11/Makefile"]
      else []
    readFile := fun p =>
      if p = "/usr/lib/python3.11/config-3.11/Makefile" then .ok "" else .error ()
    moduleBuildTimeVars := fun p =>
      if p = "/usr/lib/python3.11/_sysconfigdata__linux_.py" then
        [("CC", "gcc"), ("VERSION", ver)]
      else [] }

/-- The discovery result on `instWorld ver`. -/
def instInfo (ver : String) : HostInfo where
  host_project_base := "/usr/bin"
  host_home := "/usr"
  host_makefile := "/usr/lib/python3.11/config-3.11/Makefile"
  sysconfigdata_file := "/usr/lib/python3.11/_sysconfigdata__linux_.py"
  sysconfigdata_name := "_sysconfigdata__linux_"
  build_time_vars := [("CC", "gcc"), ("VERSION", ver)]
  host_cc := ["gcc"]
  host_version := ver
  host_platform := "linux"

/-- Arguments for the cross-pip-without-build-pip scenario. -/
def argsC3 : InitArgs where
  host_python := "/usr/bin/python3"
  extra_env_vars := []
  build_system_site_packages := false
  clear := none
  cross_loc := none
  with_cross_pip := true
  with_build_pip := false
  host_sysroot := some "/sr"

/-- Arguments for the version-mismatch scenario. -/
def argsC2 : InitArgs where
  host_python := "/usr/bin/python3"
  extra_env_vars := []
  build_system_site_packages := false
  clear := none
  cross_loc := none
  with_cross_pip := false
  with_build_pip := false
  host_sysroot := some "/sr"

/-- World for the sysconfigdata-candidate selection scenario: two candidate
files with byte-identical `build_time_vars`, the `.py` source form inside an
Ubuntu-style `plat-linux` subdirectory and a compiled `.pyc` directly in the
library directory. -/
def selWorld : World :=
  { baseWorld with
    isFile := fun p =>
      p = "/usr/lib/python3.11/_sysconfigdata_a.pyc" ||
      p = "/usr/lib/python3.11/plat-linux/_sysconfigdata_a.py"
    glob := fun pat =>
      if pat = "/usr/lib/python3.11/_sysconfigdata*.py*" then
        ["/usr/lib/python3.11/_sysconfigdata_a.pyc"]
      else if pat = "/usr/lib/python3.11/*/_sysconfigdata*.py*" then
        ["/usr/lib/python3.11/plat-linux/_sysconfigdata_a.py"]
      else []
    moduleBuildTimeVars := fun p =>
      if p = "/usr/lib/python3.11/_sysconfigdata_a.pyc" ||
         p = "/usr/lib/python3.11/plat-linux/_sysconfigdata_a.py" then
        [("CC", "gcc"), ("VERSION", "3.11")]
      else [] }

/-- World for the uninstalled-source-tree scenario whose `pybuilddir.txt`
marker is absent (every read fails). -/
def srcWorld : World :=
  { baseWorld with
    pathExists := fun p => p = "/src/python"
    isFile := fun p => p = "/src/python"
    isPythonSourceDir := fun p => p = "/src" }

/-- World in which every subprocess invocation exits with an error status. -/
def ccFailWorld : World :=
  { instWorld "3.11" with runProcess := fun _ => .error .calledProcessError }

/-- World in which the compiler binary cannot be found at all. -/
def ccMissingWorld : World :=
  { instWorld "3.11" with runProcess := fun _ => .error .fileNotFound }

/- ================================================================== -/
/- Theorems                                                           -/
/- ================================================================== -/

/-- A list with no `'='` is never split by `chSplitFirst '='`. -/
theorem chSplitFirst_eq_none {l : List Char} (h : '=' ∉ l) :
    chSplitFirst '=' l = none := by
  induction l with
  | nil => rfl
  | cons c cs ih =>
    have hc : c ≠ '=' := fun hc => h (hc ▸ List.mem_cons_self c cs)
    have hcs : '=' ∉ cs := fun hm => h (List.mem_cons_of_mem c hm)
    simp [chSplitFirst, fun hh => hc (by simpa using hh), ih hcs]

/-- `lstrip` cannot introduce a character. -/
theorem mem_of_mem_lstrip {s : String} {c : Char} (h : c ∈ (pyLStrip s).data) :
    c ∈ s.data :=
  (List.dropWhile_sublist (l := s.data) (p := chIsSpace)).subset h

/-- C7 (counterexample): the claim "for every input whose variable name is
not a valid identifier, `parse_env_vars` raises `InvalidInput`" fails on
`"=bar"`: the name before `'='` is the empty string — not an identifier —
yet because `'' in '?+:'` is `True` in Python, the source evaluates
`name[-1]` on the empty string and raises `IndexError`, not `ValueError`. -/
theorem C7_empty_name_counterexample :
    parse_env_vars ["=bar"] = .error .indexError
    ∧ exceptErrIsValue (parse_env_vars ["=bar"]) = false :=
  ⟨rfl, rfl⟩

/-- C7 (amended): `"FOO=bar"` parses to `("FOO", "=", "bar")`, `"FOO?=bar"`
to `("FOO", "?=", "bar")` and `"FOO:=a:b"` to `("FOO", ":=", "a:b")`; and
every input that splits at `'='` into a *nonempty* name part whose
operator-stripped name is not a valid identifier (such as `"1FOO=bar"`)
raises `ValueError` (`InvalidInput`).  An input whose name part is empty
raises `IndexError` instead. -/
theorem C7_parse_amended :
    parse_env_vars ["FOO=bar"] = .ok [("FOO", "=", "bar")]
    ∧ parse_env_vars ["FOO?=bar"] = .ok [("FOO", "?=", "bar")]
    ∧ parse_env_vars ["FOO:=a:b"] = .ok [("FOO", ":=", "a:b")]
    ∧ ∀ s name0 value,
        pySplit1 (pyLStrip s) '=' = some (name0, value) →
        name0 ≠ "" →
        pyIsIdentifier (stripOpName name0).1 = false →
        parse_env_vars [s]
          = .error (.valueError ("Invalid variable name " ++ pyRepr (stripOpName name0).1)) := by
  refine ⟨rfl, rfl, rfl, ?_⟩
  intro s name0 value hsp hne hid
  have hdata : name0.data ≠ [] := by
    intro hnil
    apply hne
    cases name0 with
    | mk l => cases hnil; rfl
  simp only [parse_env_vars, parseEnvVar1, trySplitUnpack, hsp, handleIndexError]
  by_cases hin : pyInStr (pyLastSlice name0) "?+:" = true
  · obtain ⟨c, hc⟩ : ∃ c, name0.data.getLast? = some c := by
      cases h : name0.data.getLast? with
      | none => exact absurd (List.getLast?_eq_none_iff.mp h) hdata
      | some c => exact ⟨c, rfl⟩
    have hstrip : (stripOpName name0).1 = pyDropLast name0 := by
      simp [stripOpName, hin]
    rw [hstrip] at hid
    simp [hin, hc, hid, hstrip]
  · have hstrip : (stripOpName name0).1 = name0 := by
      simp [stripOpName, hin]
    rw [hstrip] at hid
    simp [hin, hid, hstrip]

/-- C7 (witness): the amended universal at the concrete input `"1FOO=bar"`. -/
theorem C7_parse_amended_witness :
    pySplit1 (pyLStrip "1FOO=bar") '=' = some ("1FOO", "bar")
    ∧ ("1FOO" : String) ≠ ""
    ∧ pyIsIdentifier (stripOpName "1FOO").1 = false
    ∧ parse_env_vars ["1FOO=bar"]
        = .error (.valueError ("Invalid variable name " ++ pyRepr (stripOpName "1FOO").1)) :=
  ⟨rfl, by decide, rfl,
   C7_parse_amended.2.2.2 "1FOO=bar" "1FOO" "bar" rfl (by decide) rfl⟩

/-- C10: every input with no `'='` makes `parse_env_vars` raise an error
(the `ValueError` of unpacking a one-element split result), and the
`except IndexError` handler producing "Must be in the form NAME=VALUE" is
unreachable: wrapping the try-block body in it changes nothing, because the
failing unpack raises `ValueError`, which the handler does not catch. -/
theorem C10_handler_unreachable :
    (∀ s : String, '=' ∉ s.data → parse_env_vars [s] = .error (.valueError unpackMsg))
    ∧ ∀ spec : String, handleIndexError (trySplitUnpack spec) spec = trySplitUnpack spec := by
  constructor
  · intro s h
    have h' : '=' ∉ (pyLStrip s).data := fun hm => h (mem_of_mem_lstrip hm)
    simp [parse_env_vars, parseEnvVar1, trySplitUnpack, pySplit1,
      chSplitFirst_eq_none h', handleIndexError]
  · intro spec
    unfold handleIndexError trySplitUnpack
    cases pySplit1 spec '=' <;> rfl

/-- C10 (witness): the universal statements at the concrete input `"FOO"`. -/
theorem C10_handler_unreachable_witness :
    parse_env_vars ["FOO"] = .error (.valueError unpackMsg)
    ∧ handleIndexError (trySplitUnpack "FOO") "FOO" = trySplitUnpack "FOO" :=
  ⟨C10_handler_unreachable.1 "FOO" (by decide), C10_handler_unreachable.2 "FOO"⟩

/- Trace lemmas: construction-time code performs no filesystem mutation. -/

/-- `traceOk` distributes over append. -/
theorem traceOk_append (s t : List Access) : traceOk (s ++ t) = (traceOk s && traceOk t) := by
  simp [traceOk, List.all_append]

/-- A mapped trace whose constructor is non-mutating is mutation-free. -/
theorem traceOk_map {α : Type} (f : α → Access) (h : ∀ x, (f x).isMutation = false)
    (l : List α) : traceOk (l.map f) = true := by
  induction l with
  | nil => rfl
  | cons x xs ih => simp [traceOk, Access.isMutation, h x] at ih ⊢; exact ⟨h x, ih⟩

/-- The sysconfigdata candidate loop only imports modules. -/
theorem traceOk_fsdLoop (w : World) (l : List String) (acc : Option Scd) :
    traceOk (fsdLoop w l acc).2 = true := by
  induction l generalizing acc with
  | nil => rfl
  | cons p rest ih =>
    cases acc with
    | none =>
      simpa [fsdLoop, traceOk, Access.isMutation] using ih _
    | some scd =>
      simp only [fsdLoop]
      split
      · rfl
      · simpa [traceOk, Access.isMutation] using ih _

/-- `find_sysconfig_data` performs no filesystem mutation. -/
theorem traceOk_fsd (w : World) (paths : List String) :
    traceOk (find_sysconfig_data w paths).2 = true := by
  simp only [find_sysconfig_data]
  split <;>
  · rw [traceOk_append, traceOk_append,
      traceOk_map Access.globPat (fun _ => rfl),
      traceOk_map Access.statPath (fun _ => rfl), traceOk_fsdLoop]
    rfl

/-- `find_installed_host_home` performs no filesystem mutation. -/
theorem traceOk_fiih (w : World) (b : String) :
    traceOk (find_installed_host_home w b).2 = true := by
  simp only [find_installed_host_home]
  split
  · split <;> rfl
  · rfl

/-- The source-tree branch performs no filesystem mutation. -/
theorem traceOk_fhpSrcBranch (w : World) (b : String) :
    traceOk (fhpSrcBranch w b).2 = true := by
  simp only [fhpSrcBranch]
  split <;> rfl

/-- The installed-layout branch performs no filesystem mutation. -/
theorem traceOk_fhpInstBranch (w : World) (b : String) :
    traceOk (fhpInstBranch w b).2 = true := by
  simp only [fhpInstBranch]
  split
  · exact traceOk_fiih w b
  · rw [traceOk_append, traceOk_fiih]
    rfl

/-- Either layout branch performs no filesystem mutation. -/
theorem traceOk_fhpBranch (w : World) (c : Bool) (b : String) :
    traceOk ((if c then fhpSrcBranch w b else fhpInstBranch w b)).2 = true := by
  cases c
  · exact traceOk_fhpInstBranch w b
  · exact traceOk_fhpSrcBranch w b

/-- The discovery tail performs no filesystem mutation. -/
theorem traceOk_fhpTail (w : World) (b h m : String) (sp : List String) :
    traceOk (fhpTail w b h m sp).2 = true := by
  simp only [fhpTail]
  split
  · exact traceOk_fsd w sp
  · split
    · exact traceOk_fsd w sp
    · split
      · exact traceOk_fsd w sp
      · split
        · split <;>
          · rw [traceOk_append, traceOk_append, traceOk_fsd]
            rfl
        · rw [traceOk_append, traceOk_fsd]
          rfl

/-- `find_host_python` up to the version check performs no mutation. -/
theorem traceOk_fhpPre (w : World) (host0 : String) :
    traceOk (find_host_python_pre w host0).2 = true := by
  simp only [find_host_python_pre]
  split
  · rfl
  · split
    · rfl
    · split
      · rw [traceOk_append, traceOk_fhpBranch]
        rfl
      · rw [traceOk_append, traceOk_append, traceOk_fhpBranch, traceOk_fhpTail]
        rfl

/-- `find_host_python` performs no filesystem mutation. -/
theorem traceOk_fhp (w : World) (host0 : String) :
    traceOk (find_host_python w host0).2 = true := by
  simp only [find_host_python]
  split
  · exact traceOk_fhpPre w host0
  · split <;> exact traceOk_fhpPre w host0

/-- `run_compiler` only runs a process. -/
theorem traceOk_runCompiler (w : World) (cc : List String) (arg : String) :
    traceOk (run_compiler w cc arg).2 = true := rfl

/-- `find_compiler_info` performs no filesystem mutation. -/
theorem traceOk_fci (w : World) (cc : List String) (sr : Option String) :
    traceOk (find_compiler_info w cc sr).2 = true := by
  simp only [find_compiler_info]
  split
  · exact traceOk_runCompiler w cc _
  · exact traceOk_runCompiler w cc _
  · split
    · exact traceOk_runCompiler w cc _
    · split <;>
      · rw [traceOk_append, traceOk_runCompiler, traceOk_runCompiler]
        rfl

/-- `CrossEnvBuilder.__init__` performs no filesystem mutation: its trace
consists of stat/glob/read/import/subprocess accesses only. -/
theorem traceOk_builderInit (w : World) (a : InitArgs) :
    traceOk (builderInit w a).2 = true := by
  simp only [builderInit]
  split
  · exact traceOk_fhp w a.host_python
  · split
    · rw [traceOk_append, traceOk_fhp, traceOk_fci]
      rfl
    · split
      · rw [traceOk_append, traceOk_fhp, traceOk_fci]
        rfl
      · split <;>
        · rw [traceOk_append, traceOk_fhp, traceOk_fci]
          rfl

/- Claims about discovery and construction. -/

/-- C1: with the two candidates recording byte-identical build-time
variables, `find_sysconfig_data` succeeds — but it selects the `.pyc`
candidate that sits directly in the library directory, although the `.py`
candidate (in the Ubuntu-style `plat-linux` subdirectory) has the strictly
shorter secondary *filename* extension: the sort key
`len(x.split('.', 1)[1])` is computed over the whole path, so the extra
directory component outweighs the extension, contradicting the code's own
comment ("prefer ... the .py file ... so sort by the length of the longest
extension") and the claim. -/
theorem C1_sort_key_bug :
    (find_sysconfig_data selWorld ["/usr/lib/python3.11", "/usr/lib/python3.11/*"]).1
      = .ok { file := "/usr/lib/python3.11/_sysconfigdata_a.pyc",
              name := "_sysconfigdata_a",
              vars := [("CC", "gcc"), ("VERSION", "3.11")] }
    ∧ selWorld.moduleBuildTimeVars "/usr/lib/python3.11/plat-linux/_sysconfigdata_a.py"
        = selWorld.moduleBuildTimeVars "/usr/lib/python3.11/_sysconfigdata_a.pyc"
    ∧ secondaryExt (pyBasename "/usr/lib/python3.11/plat-linux/_sysconfigdata_a.py") = "py"
    ∧ secondaryExt (pyBasename "/usr/lib/python3.11/_sysconfigdata_a.pyc") = "pyc"
    ∧ ("py" : String).length < ("pyc" : String).length :=
  ⟨rfl, rfl, rfl, rfl, by decide⟩

/-- C2: whenever discovery proceeds to the version sanity check and the
target's recorded version differs from the running interpreter's version,
`CrossEnvBuilder.__init__` fails with the `VersionMismatch` `ValueError`,
and the access trace of the whole construction contains no filesystem
mutation (no directory is created or modified). -/
theorem C2_version_mismatch (w : World) (a : InitArgs) (info : HostInfo)
    (hpre : (find_host_python_pre w a.host_python).1 = .ok info)
    (hne : info.host_version ≠ w.buildVERSION) :
    (builderInit w a).1
      = .error (.valueError ("Version mismatch: host=" ++ info.host_version ++
          ", build=" ++ w.buildVERSION))
    ∧ traceOk (builderInit w a).2 = true := by
  have h1 : (find_host_python w a.host_python).1
      = .error (.valueError ("Version mismatch: host=" ++ info.host_version ++
          ", build=" ++ w.buildVERSION)) := by
    simp only [find_host_python, hpre]
    rw [if_pos hne]
  refine ⟨?_, traceOk_builderInit w a⟩
  simp only [builderInit, h1]

/-- C2 (witness): the version-mismatch theorem at the concrete installed
world recording VERSION `3.10` under a running interpreter whose VERSION is
`3.11`. -/
theorem C2_version_mismatch_witness :
    (find_host_python_pre (instWorld "3.10") argsC2.host_python).1 = .ok (instInfo "3.10")
    ∧ (builderInit (instWorld "3.10") argsC2).1
        = .error (.valueError "Version mismatch: host=3.10, build=3.11") := by
  refine ⟨rfl, ?_⟩
  have h := C2_version_mismatch (instWorld "3.10") argsC2 (instInfo "3.10") rfl (by decide)
  rw [h.1]
  rfl

/-- C3 (counterexample): constructing with `with_cross_pip = True` and
`with_build_pip = False` over a well-formed target does fail with the
`InvalidInput` `ValueError`, but *not* before any filesystem access: the
access trace accumulated before the failure is nonempty and contains, for
instance, the stat of the target executable (target discovery and the
compiler probe run first). -/
theorem C3_reads_before_check :
    (builderInit (instWorld "3.11") argsC3).1
      = .error (.valueError "Cannot have cross-pip without build-pip")
    ∧ (builderInit (instWorld "3.11") argsC3).2 ≠ []
    ∧ Access.statPath "/usr/bin/python3" ∈ (builderInit (instWorld "3.11") argsC3).2 :=
  ⟨rfl, by decide, by decide⟩

/-- C3 (amended): when target discovery and the compiler probe succeed,
construction with `with_cross_pip = True` and `with_build_pip = False` fails
with the `InvalidInput` `ValueError`; the failure comes *after* the
filesystem reads of those two phases, but before any filesystem mutation
(the whole construction trace is mutation-free). -/
theorem C3_pip_check_amended (w : World) (a : InitArgs) (info : HostInfo) (sr : Option String)
    (hpre : (find_host_python_pre w a.host_python).1 = .ok info)
    (hver : info.host_version = w.buildVERSION)
    (hprobe : (find_compiler_info w info.host_cc a.host_sysroot).1 = .ok sr)
    (hcross : a.with_cross_pip = true) (hbuild : a.with_build_pip = false) :
    (builderInit w a).1 = .error (.valueError "Cannot have cross-pip without build-pip")
    ∧ traceOk (builderInit w a).2 = true := by
  have h1 : (find_host_python w a.host_python).1 = .ok info := by
    simp only [find_host_python, hpre]
    rw [if_neg (by simp [hver])]
  refine ⟨?_, traceOk_builderInit w a⟩
  simp only [builderInit, h1, hprobe, hcross, hbuild]
  rfl

/-- C3 (witness): the amended theorem at the concrete well-formed world. -/
theorem C3_pip_check_amended_witness :
    (find_host_python_pre (instWorld "3.11") argsC3.host_python).1 = .ok (instInfo "3.11")
    ∧ (find_compiler_info (instWorld "3.11") (instInfo "3.11").host_cc argsC3.host_sysroot).1
        = .ok (some "/sr")
    ∧ (builderInit (instWorld "3.11") argsC3).1
        = .error (.valueError "Cannot have cross-pip without build-pip") :=
  ⟨rfl, rfl,
   (C3_pip_check_amended (instWorld "3.11") argsC3 (instInfo "3.11") (some "/sr")
      rfl rfl rfl rfl rfl).1⟩

/-- C5: on a source-build-tree target whose `pybuilddir.txt` marker cannot
be read, `find_host_python` fails — but with `NameError` for the undefined
name `s`, not with the intended `BuildIncomplete` `IOError`: the handler
`raise IOError("Cannot read %s: Build the host Python first " % s)` formats
with a variable `s` that does not exist in the function. -/
theorem C5_marker_nameerror :
    (find_host_python srcWorld "/src/python").1 = .error (.nameError "s")
    ∧ exceptErrIsValue (find_host_python srcWorld "/src/python").1 = false :=
  ⟨rfl, rfl⟩

/-- C6 (counterexample): when the compiler binary cannot be found at all,
the probe does *not* fail with the `ToolchainUnavailable` `RuntimeError`:
`run_compiler` only catches `CalledProcessError`, so the `FileNotFoundError`
from `subprocess` propagates; construction still aborts, but with that
not-found error. -/
theorem C6_missing_binary_counterexample :
    (find_compiler_info ccMissingWorld ["gcc"] none).1 = .error (.fileNotFoundError "gcc")
    ∧ exceptErrIsRuntime (find_compiler_info ccMissingWorld ["gcc"] none).1 = false
    ∧ (builderInit ccMissingWorld argsC2).1 = .error (.fileNotFoundError "gcc") :=
  ⟨rfl, rfl, rfl⟩

/-- C6 (amended): after successful target discovery, if invoking the
compiler with the version-query flag returns an error exit, construction
aborts with the `ToolchainUnavailable` `RuntimeError`; if the compiler
binary cannot be found at all, construction also aborts, but with the
propagated `FileNotFoundError` rather than `ToolchainUnavailable`. -/
theorem C6_probe_amended (w : World) (a : InitArgs) (info : HostInfo)
    (hfhp : (find_host_python w a.host_python).1 = .ok info) :
    (w.runProcess (info.host_cc ++ ["--version"]) = .error .calledProcessError →
      (builderInit w a).1
        = .error (.runtimeError "Cannot run cross-compiler! Extension modules won't build!"))
    ∧ (w.runProcess (info.host_cc ++ ["--version"]) = .error .fileNotFound →
      (builderInit w a).1
        = .error (.fileNotFoundError ((info.host_cc ++ ["--version"]).headD ""))) := by
  constructor
  · intro hrun
    simp only [builderInit, hfhp, find_compiler_info, run_compiler, hrun]
  · intro hrun
    simp only [builderInit, hfhp, find_compiler_info, run_compiler, hrun]

/-- C6 (witness): the amended theorem's first case at the concrete world in
which every subprocess exits with an error status. -/
theorem C6_probe_amended_witness :
    (find_host_python ccFailWorld argsC2.host_python).1 = .ok (instInfo "3.11")
    ∧ ccFailWorld.runProcess ((instInfo "3.11").host_cc ++ ["--version"])
        = .error .calledProcessError
    ∧ (builderInit ccFailWorld argsC2).1
        = .error (.runtimeError "Cannot run cross-compiler! Extension modules won't build!") :=
  ⟨rfl, rfl, (C6_probe_amended ccFailWorld argsC2 (instInfo "3.11") rfl).1 rfl⟩

/-- C4: the rule list handed to the generated launcher is exactly the
user-supplied rules, unchanged and in declaration order, followed by the
sysroot-derived rules; every sysroot-derived rule is a `LIBRARY_PATH` or
`CPATH` path-list (`:=`) rule; and applying the whole list (launcher
behaviour modelled from the spec) applies the user rules first, in order,
and the sysroot-derived rules last. -/
theorem C4_rule_order (w : World) (rules : List EnvRule) (sr : Option String)
    (env : List (String × String)) :
    (computeExtraEnvs w rules sr).1 = rules ++ sysrootRules w sr
    ∧ (∀ r ∈ sysrootRules w sr, (r.1 = "LIBRARY_PATH" ∨ r.1 = "CPATH") ∧ r.2.1 = ":=")
    ∧ applyRules ((computeExtraEnvs w rules sr).1) env
        = applyRules (sysrootRules w sr) (applyRules rules env) := by
  have key : (computeExtraEnvs w rules sr).1 = rules ++ sysrootRules w sr := by
    simp only [computeExtraEnvs, sysrootRules]
    by_cases h1 : optTruthy sr = true
    · by_cases h2 : (w.glob (pyJoin (pyJoin (sr.getD "") "usr") "lib*")).isEmpty = true
      <;> by_cases h3 : w.isDir (pyJoin (pyJoin (sr.getD "") "usr") "include") = true
      <;> simp [h1, h2, h3]
    · simp [h1]
  have mem : ∀ r ∈ sysrootRules w sr,
      (r.1 = "LIBRARY_PATH" ∨ r.1 = "CPATH") ∧ r.2.1 = ":=" := by
    intro r hr
    simp only [sysrootRules, computeExtraEnvs] at hr
    by_cases h1 : optTruthy sr = true
    · by_cases h2 : (w.glob (pyJoin (pyJoin (sr.getD "") "usr") "lib*")).isEmpty = true
      <;> by_cases h3 : w.isDir (pyJoin (pyJoin (sr.getD "") "usr") "include") = true
      <;> simp [h1, h2, h3] at hr
      · exact hr ▸ ⟨Or.inr rfl, rfl⟩
      · rcases hr with h | h
        · exact h ▸ ⟨Or.inl rfl, rfl⟩
        · exact h ▸ ⟨Or.inr rfl, rfl⟩
      · exact hr ▸ ⟨Or.inl rfl, rfl⟩
    · simp [h1] at hr
  refine ⟨key, mem, ?_⟩
  rw [key]
  simp [applyRules, List.foldl_append]

/-- C4 (witness): the rule-order theorem at a concrete world, one user rule
and an explicit sysroot. -/
theorem C4_rule_order_witness :
    (computeExtraEnvs baseWorld [("A", "=", "1")] (some "/sr")).1
      = [("A", "=", "1")] ++ sysrootRules baseWorld (some "/sr") :=
  (C4_rule_order baseWorld [("A", "=", "1")] (some "/sr") []).1

/-- C8: on a resolved target platform tag `linux-aarch64` (with the build
machine reporting `sys.platform = "linux"` and `platform.machine() =
"x86_64"`), the `uname` section records `sysname = "L"` and `machine = "x"`
— the title-cased *first character* and the *last character* of
`sys.platform` — not values derived from the tag's `linux` and `aarch64`
parts: the code computes `host_info` from the tag and then never uses it,
indexing `sys.platform` instead. -/
theorem C8_uname_bug :
    unameSection baseWorld "linux-aarch64"
      = .ok [("sysname", "L"), ("nodename", "build"), ("release", ""),
             ("version", ""), ("machine", "x")]
    ∧ pyTitle "linux" = "Linux"
    ∧ (("L" : String) = "Linux" → False)
    ∧ (("x" : String) = "aarch64" → False) :=
  ⟨rfl, rfl, by decide, by decide⟩

/-- Folding entry-removal over a name list equals filtering by the kept
names. -/
theorem foldlRemove_eq_filter (names : List String) (es : DirEntries) :
    names.foldl
      (fun es sub => if sub = "cross" || sub = "build" then es else remove_path es sub) es
      = es.filter
          (fun e => names.all (fun n => (n = "cross" || n = "build") || !(e.1 = n))) := by
  induction names generalizing es with
  | nil => simp
  | cons n ns ih =>
    rw [List.foldl_cons, ih]
    by_cases h : (n = "cross" || n = "build") = true
    · rw [if_pos h]
      apply List.filter_congr
      intro a _
      simp [h]
    · rw [if_neg h]
      unfold remove_path
      rw [List.filter_filter]
      apply List.filter_congr
      intro a _
      simp only [List.all_cons]
      rw [Bool.and_comm]
      congr 1
      simp [h]

/-- C9: when the directory exists and clearing was requested for at least
one sub-environment, the clearing step keeps exactly the entries named
`cross` and `build` (each unchanged) and removes every other entry; when
clearing is requested for neither, the step removes nothing. -/
theorem C9_clear_step (cc cb : Bool) (entries : DirEntries) :
    ((cc || cb) = true →
      ensureDirectoriesClear cc cb true entries
        = entries.filter (fun e => e.1 = "cross" || e.1 = "build"))
    ∧ ((cc || cb) = false → ensureDirectoriesClear cc cb true entries = entries)
    ∧ ∀ e ∈ entries, (e.1 = "cross" || e.1 = "build") = true →
        e ∈ ensureDirectoriesClear cc cb true entries := by
  have hmain : (cc || cb) = true →
      ensureDirectoriesClear cc cb true entries
        = entries.filter (fun e => e.1 = "cross" || e.1 = "build") := by
    intro h
    unfold ensureDirectoriesClear
    rw [if_pos (by simp [h]), foldlRemove_eq_filter]
    apply List.filter_congr
    intro e he
    by_cases hk : (e.1 = "cross" || e.1 = "build") = true
    · rw [hk, List.all_eq_true]
      intro n hn
      by_cases hne : e.1 = n
      · rw [← hne]
        simp [hk]
      · simp [hne]
    · rw [Bool.eq_false_iff.mpr hk, List.all_eq_false]
      refine ⟨e.1, List.mem_map_of_mem Prod.fst he, ?_⟩
      have hk1 : ¬e.1 = "cross" := fun hx => hk (by simp [hx])
      have hk2 : ¬e.1 = "build" := fun hx => hk (by simp [hx])
      simp [hk1, hk2]
  have hid : (cc || cb) = false →
      ensureDirectoriesClear cc cb true entries = entries := by
    intro h
    unfold ensureDirectoriesClear
    rw [if_neg (by simp [h])]
  refine ⟨hmain, hid, ?_⟩
  intro e he hk
  cases hor : (cc || cb)
  · rw [hid hor]
    exact he
  · rw [hmain hor]
    exact List.mem_filter.mpr ⟨he, hk⟩

/-- C9 (witness): the clearing-step theorem at a concrete directory with
four entries, clearing requested for cross only, and for neither. -/
theorem C9_clear_step_witness :
    ensureDirectoriesClear true false true
        [("cross", 1), ("build", 2), ("lib", 3), ("bin", 4)]
      = [("cross", 1), ("build", 2)]
    ∧ ensureDirectoriesClear false false true
        [("cross", 1), ("build", 2), ("lib", 3), ("bin", 4)]
      = [("cross", 1), ("build", 2), ("lib", 3), ("bin", 4)] := by
  constructor
  · have h := (C9_clear_step true false
      [("cross", 1), ("build", 2), ("lib", 3), ("bin", 4)]).1 rfl
    rw [h]
    rfl
  · exact (C9_clear_step false false
      [("cross", 1), ("build", 2), ("lib", 3), ("bin", 4)]).2.1 rfl

end Crossenv
